import Mathlib

/-!
Shallow embedding of the jiraffe issue tracker core.

This file embeds the data model (`src/models.rs`), the repository CRUD
operations (`src/database.rs`), the page input handlers
(`src/interface/pages.rs`) and the navigator state machine
(`src/navigator.rs`) of the jiraffe terminal issue tracker, and proves
properties of the embedded code.

Modelling conventions:
* Rust `HashMap<u32, V>` maps are modelled as association lists
  `List (Nat × V)`; `insert` replaces the value of an existing key in
  place, as `HashMap::insert` does.
* The `u32` id counter is modelled as `Nat` with an explicit
  `% 4294967296` at the increment, matching wrapping 32-bit arithmetic.
* Each repository operation returns the Rust `Result` value together
  with the content of the persisted store after the call; the store
  content equals the input state exactly when the operation performs no
  `write`.
* The interactive prompt capabilities (`src/interface/prompts.rs`) are
  passed to the navigator as a record of pure values.
-/

namespace Jiraffe

/-- `Status` from `src/models.rs`. -/
inductive Status where
  | Closed
  | Open
  | InProgress
  | Resolved
deriving DecidableEq, Repr

/-- `Story` from `src/models.rs`. -/
structure Story where
  name : String
  description : String
  status : Status
deriving DecidableEq, Repr

/-- `Epic` from `src/models.rs`. -/
structure Epic where
  name : String
  description : String
  status : Status
  stories : List Nat
deriving DecidableEq, Repr

/-- `Story::new` from `src/models.rs`: fresh stories start `Open`. -/
def Story.new (name description : String) : Story :=
  { name := name, description := description, status := Status.Open }

/-- `Epic::new` from `src/models.rs`: fresh epics start `Open` with no stories. -/
def Epic.new (name description : String) : Epic :=
  { name := name, description := description, status := Status.Open, stories := [] }

/-- `DBState` from `src/models.rs`; the `HashMap`s are modelled as association lists. -/
structure DBState where
  last_item_id : Nat
  epics : List (Nat × Epic)
  stories : List (Nat × Story)
deriving DecidableEq, Repr

/-- `DBState::new` from `src/models.rs`. -/
def DBState.new : DBState := { last_item_id := 0, epics := [], stories := [] }

/-- Lookup in an association list, modelling `HashMap::get`. -/
def lookupKey {α : Type} : List (Nat × α) → Nat → Option α
  | [], _ => none
  | (k', v) :: rest, k => if k' = k then some v else lookupKey rest k

/-- Insert-or-replace in an association list, modelling `HashMap::insert`
(an existing key keeps its position and gets the new value). -/
def upsert {α : Type} : List (Nat × α) → Nat → α → List (Nat × α)
  | [], k, v => [(k, v)]
  | (k', v') :: rest, k, v =>
      if k' = k then (k, v) :: rest else (k', v') :: upsert rest k v

/-- `HashMap::contains_key`. -/
def containsKey {α : Type} (m : List (Nat × α)) (k : Nat) : Bool :=
  (lookupKey m k).isSome

/-- The modulus of 32-bit `u32` arithmetic. -/
def u32Mod : Nat := 4294967296

/-- Result of a repository call, mirroring `anyhow::Result`. -/
inductive DbResult (α : Type) where
  | ok : α → DbResult α
  | err : String → DbResult α
deriving DecidableEq, Repr

/-- `JiraDatabase::create_epic` (`src/database.rs` lines 19-30): bumps the
counter, inserts the epic under the new id, and writes the new state. -/
def create_epic (st : DBState) (epic : Epic) : DbResult Nat × DBState :=
  let epic_id := (st.last_item_id + 1) % u32Mod
  (DbResult.ok epic_id,
    { st with last_item_id := epic_id, epics := upsert st.epics epic_id epic })

/-- `JiraDatabase::create_story` (`src/database.rs` lines 32-46): if the
epic exists, bumps the counter, inserts the story under the new id, appends
the id to the epic's `stories`, and writes; otherwise errors without writing. -/
def create_story (st : DBState) (story : Story) (epic_id : Nat) :
    DbResult Nat × DBState :=
  match lookupKey st.epics epic_id with
  | some epic =>
      let story_id := (st.last_item_id + 1) % u32Mod
      (DbResult.ok story_id,
        { last_item_id := story_id,
          epics := upsert st.epics epic_id
            { epic with stories := epic.stories ++ [story_id] },
          stories := upsert st.stories story_id story })
  | none =>
      (DbResult.err ("Epic with id " ++ toString epic_id ++ " not found"), st)

/-- `JiraDatabase::delete_epic` (`src/database.rs` lines 48-56): the source
only checks that the epic exists; it performs no removal and no write, so the
store content is returned unchanged on both branches. -/
def delete_epic (st : DBState) (epic_id : Nat) : DbResult Unit × DBState :=
  match lookupKey st.epics epic_id with
  | some _ => (DbResult.ok (), st)
  | none =>
      (DbResult.err ("Epic with id " ++ toString epic_id ++ " not found"), st)

/-- `JiraDatabase::delete_story` (`src/database.rs` lines 58-70): the source
only checks that the epic and the story exist; it performs no removal and no
write. -/
def delete_story (st : DBState) (epic_id story_id : Nat) :
    DbResult Unit × DBState :=
  match lookupKey st.epics epic_id with
  | some _ =>
      match lookupKey st.stories story_id with
      | some _ => (DbResult.ok (), st)
      | none =>
          (DbResult.err ("Story with id " ++ toString story_id ++ " not found"), st)
  | none =>
      (DbResult.err ("Epic with id " ++ toString epic_id ++ " not found"), st)

/-- `JiraDatabase::update_epic_status` (`src/database.rs` lines 72-80): the
source only checks that the epic exists; it assigns no status and performs no
write. -/
def update_epic_status (st : DBState) (epic_id : Nat) (_status : Status) :
    DbResult Unit × DBState :=
  match lookupKey st.epics epic_id with
  | some _ => (DbResult.ok (), st)
  | none =>
      (DbResult.err ("Epic with id " ++ toString epic_id ++ " not found"), st)

/-- `JiraDatabase::update_story_status` (`src/database.rs` lines 82-90): the
source only checks that the story exists; it assigns no status and performs no
write. -/
def update_story_status (st : DBState) (story_id : Nat) (_status : Status) :
    DbResult Unit × DBState :=
  match lookupKey st.stories story_id with
  | some _ => (DbResult.ok (), st)
  | none =>
      (DbResult.err ("Story with id " ++ toString story_id ++ " not found"), st)

/-- `Action` from `src/models.rs`. -/
inductive Action where
  | NavigateToEpicDetail (epic_id : Nat)
  | NavigateToStoryDetail (epic_id story_id : Nat)
  | NavigateToPreviousPage
  | CreateEpic
  | UpdateEpicStatus (epic_id : Nat)
  | DeleteEpic (epic_id : Nat)
  | CreateStory (epic_id : Nat)
  | UpdateStoryStatus (story_id : Nat)
  | DeleteStory (epic_id story_id : Nat)
  | Exit
deriving DecidableEq, Repr

/-- Rust's `str::parse::<u32>()`: an optional leading `+`, then at least one
ASCII digit, no other characters, value below `2^32`; anything else fails. -/
def parseU32 (s : String) : Option Nat :=
  match s.data with
  | [] => none
  | c :: rest =>
      let digits := if c = '+' then rest else c :: rest
      if digits = [] then none
      else if digits.all Char.isDigit then
        let n := digits.foldl (fun acc d => acc * 10 + (d.toNat - 48)) 0
        if n < u32Mod then some n else none
      else none

/-- `HomePage::handle_input` (`src/interface/pages.rs` lines 75-92), with the
database read replaced by the state snapshot `st`. -/
def HomePage.handle_input (st : DBState) (input : String) : Option Action :=
  if input = "q" then some Action.Exit
  else if input = "c" then some Action.CreateEpic
  else
    match parseU32 input with
    | some epic_id =>
        if containsKey st.epics epic_id then
          some (Action.NavigateToEpicDetail epic_id)
        else none
    | none => none

/-- `EpicDetail::handle_input` (`src/interface/pages.rs` lines 134-156), with
the database read replaced by the state snapshot `st`. Note the numeric branch
consults the global `stories` map, not this epic's `stories` list. -/
def EpicDetail.handle_input (epic_id : Nat) (st : DBState) (input : String) :
    Option Action :=
  if input = "p" then some Action.NavigateToPreviousPage
  else if input = "u" then some (Action.UpdateEpicStatus epic_id)
  else if input = "d" then some (Action.DeleteEpic epic_id)
  else if input = "c" then some (Action.CreateStory epic_id)
  else
    match parseU32 input with
    | some story_id =>
        if containsKey st.stories story_id then
          some (Action.NavigateToStoryDetail epic_id story_id)
        else none
    | none => none

/-- `StoryDetail::handle_input` (`src/interface/pages.rs` lines 188-198). -/
def StoryDetail.handle_input (epic_id story_id : Nat) (input : String) :
    Option Action :=
  if input = "p" then some Action.NavigateToPreviousPage
  else if input = "u" then some (Action.UpdateStoryStatus story_id)
  else if input = "d" then some (Action.DeleteStory epic_id story_id)
  else none

/-- The page variants held on the navigator stack (`src/interface/pages.rs`). -/
inductive PageKind where
  | home
  | epicDetail (epic_id : Nat)
  | storyDetail (epic_id story_id : Nat)
deriving DecidableEq, Repr

/-- The prompt capabilities of `src/interface/prompts.rs`, modelled as the
pure values they would return. -/
structure PromptsModel where
  create_epic : Epic
  create_story : Story
  delete_epic : Bool
  delete_story : Bool
  update_status : Option Status
deriving DecidableEq, Repr

/-- The state owned by `Navigator` (`src/navigator.rs`): the page stack plus
the content of the shared store. -/
structure NavState where
  pages : List PageKind
  db : DBState
deriving DecidableEq, Repr

/-- `Navigator::new` (`src/navigator.rs` lines 16-22). -/
def Navigator.new (db : DBState) : NavState :=
  { pages := [PageKind.home], db := db }

/-- `Navigator::handle_action` (`src/navigator.rs` lines 26-93). `Vec::push`
appends at the end of the list, `pop` removes the last element when the stack
is non-empty, and the `?` operator returns the repository error without
touching the page stack. -/
def Navigator.handle_action (p : PromptsModel) (nav : NavState) (a : Action) :
    DbResult Unit × NavState :=
  match a with
  | Action.NavigateToEpicDetail epic_id =>
      (DbResult.ok (),
        { nav with pages := nav.pages ++ [PageKind.epicDetail epic_id] })
  | Action.NavigateToStoryDetail epic_id story_id =>
      (DbResult.ok (),
        { nav with pages := nav.pages ++ [PageKind.storyDetail epic_id story_id] })
  | Action.NavigateToPreviousPage =>
      (DbResult.ok (),
        { nav with pages := if nav.pages.isEmpty then nav.pages else nav.pages.dropLast })
  | Action.CreateEpic =>
      match create_epic nav.db p.create_epic with
      | (DbResult.ok _, db') => (DbResult.ok (), { nav with db := db' })
      | (DbResult.err e, db') => (DbResult.err e, { nav with db := db' })
  | Action.UpdateEpicStatus epic_id =>
      match p.update_status with
      | some s =>
          match update_epic_status nav.db epic_id s with
          | (DbResult.ok _, db') => (DbResult.ok (), { nav with db := db' })
          | (DbResult.err e, db') => (DbResult.err e, { nav with db := db' })
      | none => (DbResult.ok (), nav)
  | Action.DeleteEpic epic_id =>
      if p.delete_epic then
        match delete_epic nav.db epic_id with
        | (DbResult.ok _, db') =>
            (DbResult.ok (),
              { pages := if nav.pages.isEmpty then nav.pages else nav.pages.dropLast,
                db := db' })
        | (DbResult.err e, db') => (DbResult.err e, { nav with db := db' })
      else (DbResult.ok (), nav)
  | Action.CreateStory epic_id =>
      match create_story nav.db p.create_story epic_id with
      | (DbResult.ok _, db') => (DbResult.ok (), { nav with db := db' })
      | (DbResult.err e, db') => (DbResult.err e, { nav with db := db' })
  | Action.UpdateStoryStatus story_id =>
      match p.update_status with
      | some s =>
          match update_story_status nav.db story_id s with
          | (DbResult.ok _, db') => (DbResult.ok (), { nav with db := db' })
          | (DbResult.err e, db') => (DbResult.err e, { nav with db := db' })
      | none => (DbResult.ok (), nav)
  | Action.DeleteStory epic_id story_id =>
      if p.delete_story then
        match delete_story nav.db epic_id story_id with
        | (DbResult.ok _, db') =>
            (DbResult.ok (),
              { pages := if nav.pages.isEmpty then nav.pages else nav.pages.dropLast,
                db := db' })
        | (DbResult.err e, db') => (DbResult.err e, { nav with db := db' })
      else (DbResult.ok (), nav)
  | Action.Exit => (DbResult.ok (), { nav with pages := [] })

/-- A repository call, for reasoning about call sequences. -/
inductive Op where
  | createEpic (epic : Epic)
  | createStory (story : Story) (epic_id : Nat)
  | deleteEpic (epic_id : Nat)
  | deleteStory (epic_id story_id : Nat)
  | updateEpic (epic_id : Nat) (s : Status)
  | updateStory (story_id : Nat) (s : Status)
deriving DecidableEq, Repr

/-- Run one repository call; the second component is the id the call returned
when it was a successful create. -/
def applyOp (st : DBState) : Op → DBState × Option Nat
  | Op.createEpic epic =>
      match create_epic st epic with
      | (DbResult.ok id, st') => (st', some id)
      | (DbResult.err _, st') => (st', none)
  | Op.createStory story epic_id =>
      match create_story st story epic_id with
      | (DbResult.ok id, st') => (st', some id)
      | (DbResult.err _, st') => (st', none)
  | Op.deleteEpic epic_id => ((delete_epic st epic_id).2, none)
  | Op.deleteStory epic_id story_id => ((delete_story st epic_id story_id).2, none)
  | Op.updateEpic epic_id s => ((update_epic_status st epic_id s).2, none)
  | Op.updateStory story_id s => ((update_story_status st story_id s).2, none)

/-- Run a sequence of repository calls, collecting the ids returned by the
successful creates in call order. -/
def runOps : DBState → List Op → DBState × List Nat
  | st, [] => (st, [])
  | st, op :: rest =>
      let p := applyOp st op
      let q := runOps p.1 rest
      (q.1, p.2.toList ++ q.2)

/-- The number of create calls in a sequence (an upper bound on how many ids
get issued). -/
def countCreates : List Op → Nat
  | [] => 0
  | Op.createEpic _ :: rest => countCreates rest + 1
  | Op.createStory _ _ :: rest => countCreates rest + 1
  | _ :: rest => countCreates rest

/-! Concrete inputs used to instantiate the theorems below. -/

/-- The state of the repository's `delete_epic_should_pass` test right before
the delete: epic `1` owns story `2`, counter at `2`. -/
def stJ : DBState :=
  { last_item_id := 2,
    epics := [(1, { name := "", description := "", status := Status.Open, stories := [2] })],
    stories := [(2, { name := "", description := "", status := Status.Open })] }

/-- A state whose epics map contains only id `1`. -/
def stC7 : DBState :=
  { last_item_id := 1, epics := [(1, Epic.new "" "")], stories := [] }

/-- An epic owning exactly story `3`. -/
def epicA : Epic :=
  { name := "a", description := "", status := Status.Open, stories := [3] }

/-- An epic owning exactly story `4`. -/
def epicB : Epic :=
  { name := "b", description := "", status := Status.Open, stories := [4] }

/-- Two epics with one story each: story `4` is in the global `stories` map
but is not owned by epic `1`. -/
def stC5 : DBState :=
  { last_item_id := 4,
    epics := [(1, epicA), (2, epicB)],
    stories := [(3, Story.new "s3" ""), (4, Story.new "s4" "")] }

/-- A state whose counter sits two steps below the `u32` maximum. -/
def stBig : DBState :=
  { last_item_id := 4294967294, epics := [], stories := [] }

/-- Two consecutive epic creations. -/
def opsBig : List Op :=
  [Op.createEpic (Epic.new "" ""), Op.createEpic (Epic.new "" "")]

/-- Creates interleaved with a delete. -/
def opsW : List Op :=
  [Op.createEpic (Epic.new "" ""), Op.createStory (Story.new "" "") 1,
   Op.deleteEpic 1, Op.createEpic (Epic.new "x" "")]

/-- A concrete prompt record: every confirmation answered yes, status `Closed`. -/
def p0 : PromptsModel :=
  { create_epic := Epic.new "" "", create_story := Story.new "" "",
    delete_epic := true, delete_story := true,
    update_status := some Status.Closed }

/-- A navigator holding only the initial Home page. -/
def nav0 : NavState := { pages := [PageKind.home], db := DBState.new }

/-- A navigator whose page stack has been emptied. -/
def navE : NavState := { pages := [], db := DBState.new }

/-! Helper lemmas about the embedded operations. -/

lemma lookupKey_upsert_self {α : Type} (m : List (Nat × α)) (k : Nat) (v : α) :
    lookupKey (upsert m k v) k = some v := by
  induction m with
  | nil => simp [upsert, lookupKey]
  | cons hd tl ih =>
      obtain ⟨k', v'⟩ := hd
      by_cases hk : k' = k
      · simp [upsert, hk, lookupKey]
      · simp [upsert, hk, lookupKey, ih]

lemma delete_epic_state (st : DBState) (epic_id : Nat) :
    (delete_epic st epic_id).2 = st := by
  cases hl : lookupKey st.epics epic_id <;> simp [delete_epic, hl]

lemma delete_story_state (st : DBState) (epic_id story_id : Nat) :
    (delete_story st epic_id story_id).2 = st := by
  cases hl : lookupKey st.epics epic_id
  · simp [delete_story, hl]
  · cases hs : lookupKey st.stories story_id <;> simp [delete_story, hl, hs]

lemma update_epic_status_state (st : DBState) (epic_id : Nat) (s : Status) :
    (update_epic_status st epic_id s).2 = st := by
  cases hl : lookupKey st.epics epic_id <;> simp [update_epic_status, hl]

lemma update_story_status_state (st : DBState) (story_id : Nat) (s : Status) :
    (update_story_status st story_id s).2 = st := by
  cases hl : lookupKey st.stories story_id <;> simp [update_story_status, hl]

lemma countCreates_cons_le (op : Op) (rest : List Op) :
    countCreates rest ≤ countCreates (op :: rest) := by
  cases op <;> simp [countCreates]

/-- Each repository call either leaves the state untouched and issues no id,
or (for a successful create) issues the incremented counter value as the new
id and stores it as the new counter. -/
lemma applyOp_cases (st : DBState) (op : Op) :
    applyOp st op = (st, none) ∨
    ((applyOp st op).2 = some ((st.last_item_id + 1) % u32Mod) ∧
     (applyOp st op).1.last_item_id = (st.last_item_id + 1) % u32Mod ∧
     ∀ rest : List Op, countCreates (op :: rest) = countCreates rest + 1) := by
  cases op with
  | createEpic epic =>
      right
      refine ⟨?_, ?_, fun rest => rfl⟩ <;> simp [applyOp, create_epic]
  | createStory story epic_id =>
      cases hl : lookupKey st.epics epic_id with
      | none => left; simp [applyOp, create_story, hl]
      | some ep =>
          right
          refine ⟨?_, ?_, fun rest => rfl⟩ <;> simp [applyOp, create_story, hl]
  | deleteEpic epic_id => left; simp [applyOp, delete_epic_state]
  | deleteStory epic_id story_id => left; simp [applyOp, delete_story_state]
  | updateEpic epic_id s => left; simp [applyOp, update_epic_status_state]
  | updateStory story_id s => left; simp [applyOp, update_story_status_state]

/-- Along any call sequence whose creates cannot overflow the 32-bit counter,
the counter never decreases, grows by at most the number of creates, every
issued id lies strictly above the initial counter and at most at the final
counter, and the issued ids are pairwise strictly increasing. -/
lemma runOps_spec (ops : List Op) :
    ∀ st : DBState, st.last_item_id + countCreates ops < u32Mod →
      st.last_item_id ≤ (runOps st ops).1.last_item_id ∧
      (runOps st ops).1.last_item_id ≤ st.last_item_id + countCreates ops ∧
      (∀ id ∈ (runOps st ops).2,
          st.last_item_id < id ∧ id ≤ (runOps st ops).1.last_item_id) ∧
      List.Pairwise (fun a b => a < b) (runOps st ops).2 := by
  induction ops with
  | nil =>
      intro st h
      simp [runOps, countCreates]
  | cons op rest ih =>
      intro st h
      have hle : countCreates rest ≤ countCreates (op :: rest) :=
        countCreates_cons_le op rest
      rcases applyOp_cases st op with hnone | ⟨hsome, hlast, hcnt⟩
      · have h' : st.last_item_id + countCreates rest < u32Mod := by omega
        obtain ⟨ih1, ih2, ih3, ih4⟩ := ih st h'
        have hrun : runOps st (op :: rest) = runOps st rest := by
          simp [runOps, hnone]
        rw [hrun]
        exact ⟨ih1, le_trans ih2 (by omega), ih3, ih4⟩
      · have hcc := hcnt rest
        rw [hcc] at h
        have hlt : st.last_item_id + 1 < u32Mod := by omega
        rw [Nat.mod_eq_of_lt hlt] at hsome hlast
        set st' := (applyOp st op).1 with hst'
        have h' : st'.last_item_id + countCreates rest < u32Mod := by omega
        obtain ⟨ih1, ih2, ih3, ih4⟩ := ih st' h'
        have hrun : runOps st (op :: rest)
            = ((runOps st' rest).1, (st.last_item_id + 1) :: (runOps st' rest).2) := by
          simp [runOps, hsome]
        rw [hrun, hcc]
        refine ⟨?_, ?_, ?_, ?_⟩
        · simp only []
          omega
        · simp only []
          omega
        · intro id hid
          rcases List.mem_cons.mp hid with rfl | hmem
          · exact ⟨by omega, by simp only []; omega⟩
          · have hib := ih3 id hmem
            exact ⟨by omega, by simp only []; omega⟩
        · refine List.Pairwise.cons ?_ ih4
          intro id hmem
          have hib := ih3 id hmem
          omega

/-! Claim theorems. -/

/-- C1: `delete_epic` on a state containing the epic returns `Ok` but, contrary
to the claim (and to the repository's own `delete_epic_should_pass` test), it
performs no write: the persisted state is unchanged, so the epics map still
contains the epic id and the stories map still contains the story it owned. -/
theorem delete_epic_validates_but_removes_nothing :
    (delete_epic stJ 1).1 = DbResult.ok () ∧
    (delete_epic stJ 1).2 = stJ ∧
    containsKey (delete_epic stJ 1).2.epics 1 = true ∧
    containsKey (delete_epic stJ 1).2.stories 2 = true := by
  refine ⟨by decide, by decide, by decide, by decide⟩

/-- C2: `update_epic_status` / `update_story_status` on a state containing the
target return `Ok` but, contrary to the claim (and to the repository's own
`update_epic_status_should_pass` / `update_story_status_should_pass` tests),
they assign no status and perform no write: the persisted state is unchanged
and the target's status is still `Open` after an update to `Closed`. -/
theorem update_status_validates_but_changes_nothing :
    (update_epic_status stJ 1 Status.Closed).1 = DbResult.ok () ∧
    (update_epic_status stJ 1 Status.Closed).2 = stJ ∧
    (lookupKey (update_epic_status stJ 1 Status.Closed).2.epics 1).map Epic.status
      = some Status.Open ∧
    (update_story_status stJ 2 Status.Closed).1 = DbResult.ok () ∧
    (update_story_status stJ 2 Status.Closed).2 = stJ ∧
    (lookupKey (update_story_status stJ 2 Status.Closed).2.stories 2).map Story.status
      = some Status.Open := by
  refine ⟨by decide, by decide, by decide, by decide, by decide, by decide⟩

/-- C3 (counterexample): starting from a stored state whose counter is
`4294967294`, two successful `create_epic` calls return ids `4294967295` and
then `0` — the wrapping 32-bit increment makes the returned ids fail to be
strictly increasing, refuting the claim for arbitrary starting states. -/
theorem create_ids_not_increasing_at_wraparound :
    (runOps stBig opsBig).2 = [4294967295, 0] ∧
    ¬ List.Pairwise (fun a b => a < b) (runOps stBig opsBig).2 := by
  refine ⟨by decide, by decide⟩

/-- C3 (amended): provided the 32-bit counter cannot wrap along the sequence
(initial counter plus number of creates stays below `2^32`), the ids returned
by the successful creates are pairwise strictly increasing in call order (so
none repeats), every issued id lies strictly above the initial counter and at
most at the final counter (deletes and updates never touch the counter), and
each successful create returns exactly the counter value it just stored. -/
theorem create_ids_strictly_increasing (st : DBState) (ops : List Op)
    (h : st.last_item_id + countCreates ops < u32Mod) :
    List.Pairwise (fun a b => a < b) (runOps st ops).2 ∧
    (∀ id ∈ (runOps st ops).2,
        st.last_item_id < id ∧ id ≤ (runOps st ops).1.last_item_id) ∧
    (∀ epic, (create_epic st epic).1
        = DbResult.ok ((create_epic st epic).2.last_item_id)) ∧
    (∀ story epic_id ep, lookupKey st.epics epic_id = some ep →
        (create_story st story epic_id).1
          = DbResult.ok ((create_story st story epic_id).2.last_item_id)) := by
  obtain ⟨_, _, h3, h4⟩ := runOps_spec ops st h
  refine ⟨h4, h3, fun epic => rfl, fun story epic_id ep hep => ?_⟩
  simp [create_story, hep]

/-- C3 (witness): a concrete no-overflow sequence of creates interleaved with
a delete, to which the amended theorem applies. -/
theorem create_ids_strictly_increasing_witness :
    DBState.new.last_item_id + countCreates opsW < u32Mod ∧
    List.Pairwise (fun a b => a < b) (runOps DBState.new opsW).2 :=
  ⟨by decide, (create_ids_strictly_increasing DBState.new opsW (by decide)).1⟩

/-- C4: `create_story` fails (with the not-found error) iff the epic id is not
a key of the epics map at call time; on success it returns the incremented
counter as the new id, stores that counter, inserts the story under the new id
and appends the new id to the owning epic's `stories` sequence in the
persisted state. -/
theorem create_story_notfound_iff (st : DBState) (story : Story) (epic_id : Nat) :
    ((∃ msg, (create_story st story epic_id).1 = DbResult.err msg)
        ↔ lookupKey st.epics epic_id = none) ∧
    (∀ ep, lookupKey st.epics epic_id = some ep →
      (create_story st story epic_id).1
          = DbResult.ok ((st.last_item_id + 1) % u32Mod) ∧
      (create_story st story epic_id).2.last_item_id
          = (st.last_item_id + 1) % u32Mod ∧
      lookupKey (create_story st story epic_id).2.stories
          ((st.last_item_id + 1) % u32Mod) = some story ∧
      lookupKey (create_story st story epic_id).2.epics epic_id
          = some { ep with stories := ep.stories ++ [(st.last_item_id + 1) % u32Mod] }) := by
  constructor
  · cases hl : lookupKey st.epics epic_id with
    | some ep => simp [create_story, hl]
    | none => simp [create_story, hl]
  · intro ep hep
    refine ⟨by simp [create_story, hep], by simp [create_story, hep], ?_, ?_⟩
    · simp [create_story, hep, lookupKey_upsert_self]
    · simp [create_story, hep, lookupKey_upsert_self]

/-- C4 (witness): on a state whose epics map contains id `1`, creating a story
under epic `1` succeeds and returns the incremented counter. -/
theorem create_story_notfound_iff_witness :
    lookupKey stC7.epics 1 = some (Epic.new "" "") ∧
    (create_story stC7 (Story.new "" "") 1).1
      = DbResult.ok ((stC7.last_item_id + 1) % u32Mod) :=
  ⟨by decide,
    ((create_story_notfound_iff stC7 (Story.new "" "") 1).2 (Epic.new "" "")
      (by decide)).1⟩

/-- C5 (counterexample): on a snapshot where story `4` exists globally but is
owned by epic `2`, the EpicDetail page for epic `1` maps input `"4"` to
`NavigateToStoryDetail`, although `4` does not occur in epic `1`'s `stories`
list — refuting the claimed ownership check. -/
theorem epic_detail_ignores_ownership :
    EpicDetail.handle_input 1 stC5 "4"
        = some (Action.NavigateToStoryDetail 1 4) ∧
    lookupKey stC5.epics 1 = some epicA ∧
    ¬ (4 ∈ epicA.stories) := by
  refine ⟨by decide, by decide, by decide⟩

/-- C5 (amended): for an input that parses exactly as an unsigned integer `n`,
the EpicDetail page yields `NavigateToStoryDetail` for `n` iff `n` is a key of
the global `stories` map in the snapshot — ownership by this epic is not
consulted. -/
theorem epic_detail_numeric_navigates_iff_global (epic_id : Nat) (st : DBState)
    (input : String) (n : Nat) (h : parseU32 input = some n) :
    EpicDetail.handle_input epic_id st input
        = some (Action.NavigateToStoryDetail epic_id n)
      ↔ containsKey st.stories n = true := by
  have hp : input ≠ "p" := by
    intro hEq
    rw [hEq] at h
    have hnone : parseU32 "p" = none := by decide
    rw [hnone] at h
    cases h
  have hu : input ≠ "u" := by
    intro hEq
    rw [hEq] at h
    have hnone : parseU32 "u" = none := by decide
    rw [hnone] at h
    cases h
  have hd : input ≠ "d" := by
    intro hEq
    rw [hEq] at h
    have hnone : parseU32 "d" = none := by decide
    rw [hnone] at h
    cases h
  have hc : input ≠ "c" := by
    intro hEq
    rw [hEq] at h
    have hnone : parseU32 "c" = none := by decide
    rw [hnone] at h
    cases h
  unfold EpicDetail.handle_input
  rw [if_neg hp, if_neg hu, if_neg hd, if_neg hc, h]
  by_cases hmem : containsKey st.stories n = true
  · simp [hmem]
  · simp [hmem]

/-- C5 (witness): story `3` is a key of the global map, so input `"3"` on the
EpicDetail page for epic `1` navigates to it. -/
theorem epic_detail_numeric_navigates_iff_global_witness :
    parseU32 "3" = some 3 ∧
    (EpicDetail.handle_input 1 stC5 "3"
        = some (Action.NavigateToStoryDetail 1 3)
      ↔ containsKey stC5.stories 3 = true) :=
  ⟨by decide, epic_detail_numeric_navigates_iff_global 1 stC5 "3" 3 (by decide)⟩

/-- C6 (counterexample): dispatching `NavigateToPreviousPage` on the stack
holding only the initial Home page pops it — the page count becomes `0`, not
`1` as claimed (the repository's own navigator test asserts the count `0`). -/
theorem previous_on_home_only_stack_pops :
    (Navigator.handle_action p0 nav0 Action.NavigateToPreviousPage).2.pages.length = 0 ∧
    ¬ (Navigator.handle_action p0 nav0 Action.NavigateToPreviousPage).2.pages.length = 1 := by
  refine ⟨by decide, by decide⟩

/-- C6 (amended): `NavigateToPreviousPage` pops the top page of any non-empty
stack — on the Home-only stack the page count becomes `0` — while popping an
empty stack is a no-op, and `Exit` empties the stack from any depth. -/
theorem previous_pops_and_exit_clears (p : PromptsModel) (nav : NavState) :
    (nav.pages ≠ [] →
      (Navigator.handle_action p nav Action.NavigateToPreviousPage).2.pages.length
        = nav.pages.length - 1) ∧
    (Navigator.handle_action p nav Action.Exit).2.pages = [] ∧
    (nav.pages = [] →
      (Navigator.handle_action p nav Action.NavigateToPreviousPage).2.pages = []) := by
  refine ⟨?_, rfl, ?_⟩
  · intro h
    simp [Navigator.handle_action, h]
  · intro h
    simp [Navigator.handle_action, h]

/-- C6 (witness): popping the Home-only stack yields page count `1 - 1 = 0`,
and popping the empty stack leaves it empty. -/
theorem previous_pops_and_exit_clears_witness :
    (Navigator.handle_action p0 nav0 Action.NavigateToPreviousPage).2.pages.length
      = nav0.pages.length - 1 ∧
    (Navigator.handle_action p0 navE Action.NavigateToPreviousPage).2.pages = [] :=
  ⟨(previous_pops_and_exit_clears p0 nav0).1 (by decide),
   (previous_pops_and_exit_clears p0 navE).2.2 (by decide)⟩

/-- C7: on a Home page over a state whose epics map contains only id `1`,
input `"1"` yields `NavigateToEpicDetail 1`, input `"999"` yields no action,
input `"q\n"` yields no action; and in general the Home page emits
`NavigateToEpicDetail n` only when the whole input parses exactly as the
unsigned integer `n` (so any trailing characters defeat the match) and `n` is
a key of the epics map. -/
theorem home_input_scenario_and_exact_parse :
    HomePage.handle_input stC7 "1" = some (Action.NavigateToEpicDetail 1) ∧
    HomePage.handle_input stC7 "999" = none ∧
    HomePage.handle_input stC7 "q\n" = none ∧
    (∀ (st : DBState) (input : String) (n : Nat),
        HomePage.handle_input st input = some (Action.NavigateToEpicDetail n) →
        parseU32 input = some n ∧ containsKey st.epics n = true) := by
  refine ⟨by decide, by decide, by decide, ?_⟩
  intro st input n h
  unfold HomePage.handle_input at h
  by_cases hq : input = "q"
  · rw [if_pos hq] at h
    cases h
  rw [if_neg hq] at h
  by_cases hc : input = "c"
  · rw [if_pos hc] at h
    cases h
  rw [if_neg hc] at h
  cases hp : parseU32 input with
  | none => rw [hp] at h; cases h
  | some m =>
      rw [hp] at h
      have h' : (if containsKey st.epics m = true
            then some (Action.NavigateToEpicDetail m) else none)
          = some (Action.NavigateToEpicDetail n) := h
      by_cases hmem : containsKey st.epics m = true
      · rw [if_pos hmem] at h'
        have hmn : m = n := by
          have h2 := Option.some.inj h'
          injection h2 with h3
        subst hmn
        exact ⟨rfl, hmem⟩
      · rw [if_neg hmem] at h'
        cases h'

/-- C7 (witness): instantiating the general clause at the concrete input
`"1"` over `stC7`. -/
theorem home_input_scenario_witness :
    parseU32 "1" = some 1 ∧ containsKey stC7.epics 1 = true :=
  home_input_scenario_and_exact_parse.2.2.2 stC7 "1" 1 (by decide)

/-- C8: whenever a mutating repository operation returns an error, the
persisted state after the call equals the state before it — no write happens
unless validation passes (for `create_epic` the error branch is vacuous). -/
theorem mutations_no_write_on_error (st : DBState) (epic : Epic) (story : Story)
    (epic_id story_id : Nat) (s : Status) :
    (∀ msg, (create_epic st epic).1 = DbResult.err msg →
        (create_epic st epic).2 = st) ∧
    (∀ msg, (create_story st story epic_id).1 = DbResult.err msg →
        (create_story st story epic_id).2 = st) ∧
    (∀ msg, (delete_epic st epic_id).1 = DbResult.err msg →
        (delete_epic st epic_id).2 = st) ∧
    (∀ msg, (delete_story st epic_id story_id).1 = DbResult.err msg →
        (delete_story st epic_id story_id).2 = st) ∧
    (∀ msg, (update_epic_status st epic_id s).1 = DbResult.err msg →
        (update_epic_status st epic_id s).2 = st) ∧
    (∀ msg, (update_story_status st story_id s).1 = DbResult.err msg →
        (update_story_status st story_id s).2 = st) := by
  refine ⟨?_, ?_, ?_, ?_, ?_, ?_⟩
  · intro msg hmsg
    cases hmsg
  · intro msg hmsg
    cases hl : lookupKey st.epics epic_id with
    | some ep => rw [create_story, hl] at hmsg; cases hmsg
    | none => rw [create_story, hl]
  · intro msg _
    exact delete_epic_state st epic_id
  · intro msg _
    exact delete_story_state st epic_id story_id
  · intro msg _
    exact update_epic_status_state st epic_id s
  · intro msg _
    exact update_story_status_state st story_id s

/-- C8 (witness): `create_story` against the empty store errors on epic `5`
and the persisted state is the unchanged empty store. -/
theorem mutations_no_write_on_error_witness :
    (create_story DBState.new (Story.new "" "") 5).1
      = DbResult.err ("Epic with id " ++ toString 5 ++ " not found") ∧
    (create_story DBState.new (Story.new "" "") 5).2 = DBState.new :=
  ⟨by decide,
    (mutations_no_write_on_error DBState.new (Epic.new "" "") (Story.new "" "")
        5 7 Status.Closed).2.1
      ("Epic with id " ++ toString 5 ++ " not found") (by decide)⟩

/-- C9: for any name and description, `Epic::new` yields status `Open` with an
empty stories list and `Story::new` yields status `Open`; consequently an epic
created through `create_epic` from `Epic::new` enters the persisted document
with status `Open` and no stories, and a story created through a successful
`create_story` from `Story::new` enters the persisted document with status
`Open`. -/
theorem new_entities_start_open (name description : String) :
    (Epic.new name description).status = Status.Open ∧
    (Epic.new name description).stories = [] ∧
    (Story.new name description).status = Status.Open ∧
    (∀ st : DBState,
      lookupKey (create_epic st (Epic.new name description)).2.epics
          ((st.last_item_id + 1) % u32Mod) = some (Epic.new name description)) ∧
    (∀ (st : DBState) (epic_id : Nat) (ep : Epic),
      lookupKey st.epics epic_id = some ep →
      lookupKey (create_story st (Story.new name description) epic_id).2.stories
          ((st.last_item_id + 1) % u32Mod) = some (Story.new name description)) := by
  refine ⟨rfl, rfl, rfl, ?_, ?_⟩
  · intro st
    simp [create_epic, lookupKey_upsert_self]
  · intro st epic_id ep hep
    simp [create_story, hep, lookupKey_upsert_self]

/-- C9 (witness): creating a story from `Story::new` under the existing epic
`1` of `stC7` stores it unchanged — in particular with status `Open`. -/
theorem new_entities_start_open_witness :
    lookupKey stC7.epics 1 = some (Epic.new "" "") ∧
    lookupKey (create_story stC7 (Story.new "n" "d") 1).2.stories
        ((stC7.last_item_id + 1) % u32Mod) = some (Story.new "n" "d") :=
  ⟨by decide,
    (new_entities_start_open "n" "d").2.2.2.2 stC7 1 (Epic.new "" "") (by decide)⟩

/-- C10: dispatching any of the four pure navigation actions
(`NavigateToEpicDetail`, `NavigateToStoryDetail`, `NavigateToPreviousPage`,
`Exit`) through the navigator always returns `Ok` and leaves the store state
untouched — no repository mutation is invoked. -/
theorem navigation_actions_leave_store_unchanged (p : PromptsModel)
    (nav : NavState) (epic_id story_id : Nat) :
    ((Navigator.handle_action p nav (Action.NavigateToEpicDetail epic_id)).1
        = DbResult.ok () ∧
     (Navigator.handle_action p nav (Action.NavigateToEpicDetail epic_id)).2.db
        = nav.db) ∧
    ((Navigator.handle_action p nav
        (Action.NavigateToStoryDetail epic_id story_id)).1 = DbResult.ok () ∧
     (Navigator.handle_action p nav
        (Action.NavigateToStoryDetail epic_id story_id)).2.db = nav.db) ∧
    ((Navigator.handle_action p nav Action.NavigateToPreviousPage).1
        = DbResult.ok () ∧
     (Navigator.handle_action p nav Action.NavigateToPreviousPage).2.db
        = nav.db) ∧
    ((Navigator.handle_action p nav Action.Exit).1 = DbResult.ok () ∧
     (Navigator.handle_action p nav Action.Exit).2.db = nav.db) :=
  ⟨⟨rfl, rfl⟩, ⟨rfl, rfl⟩, ⟨rfl, rfl⟩, ⟨rfl, rfl⟩⟩

end Jiraffe
